import Mathlib

/-!
Shallow embedding of the myBlueprint Career Launch landing page's form
logic: the `FormValidator` email validation module and the
`CareerLaunchApp` submission controller (validation, Zoho submission
with timeout/retry/backoff, and user-facing error message selection).

JavaScript strings are modelled as Lean `String`s; the handful of
JS string primitives the code uses (`trim`, `toLowerCase`, `includes`,
`split`, the email regex) are embedded below over `List Char`.
-/

namespace CareerLaunch

/-- Characters matched by the JavaScript regex class `\s` (and removed by
`String.prototype.trim`): ASCII whitespace, NBSP, the Unicode space
separators, line/paragraph separators, narrow no-break space, ideographic
space and the BOM. -/
def isJsSpace (c : Char) : Bool :=
  c = ' ' || c = '\t' || c = '\n' || c = '\r' || c = '\x0b' || c = '\x0c' ||
  c.toNat = 160 || c.toNat = 5760 ||
  (8192 ≤ c.toNat && c.toNat ≤ 8202) ||
  c.toNat = 8232 || c.toNat = 8233 || c.toNat = 8239 || c.toNat = 8287 ||
  c.toNat = 12288 || c.toNat = 65279

/-- Embedding of `String.prototype.trim` on the character list: drop
leading and trailing JS whitespace. -/
def jsTrimList (cs : List Char) : List Char :=
  ((cs.dropWhile isJsSpace).reverse.dropWhile isJsSpace).reverse

/-- Embedding of `String.prototype.trim`. -/
def jsTrim (s : String) : String :=
  ⟨jsTrimList s.data⟩

/-- Embedding of `String.prototype.toLowerCase` on one character,
restricted to the ASCII range the source's inputs use: the letters
`A`–`Z` (code points 65–90) map 32 code points up, everything else is
unchanged. -/
def jsToLowerChar (c : Char) : Char :=
  if 65 ≤ c.toNat ∧ c.toNat ≤ 90 then Char.ofNat (c.toNat + 32) else c

/-- Embedding of `String.prototype.toLowerCase` (ASCII letters). -/
def jsToLower (s : String) : String :=
  ⟨s.data.map jsToLowerChar⟩

/-- `needle` occurs as a contiguous sublist of `hay`. -/
def listContainsSub (needle hay : List Char) : Bool :=
  (List.range (hay.length + 1)).any (fun i => needle.isPrefixOf (hay.drop i))

/-- Embedding of `hay.includes(needle)` from JavaScript (substring
containment, case-sensitive). -/
def jsIncludes (hay needle : String) : Bool :=
  listContainsSub needle.data hay.data

/-- Embedding of `String.prototype.split(sep)`: the list of
separator-free segments (JS `split` with a single-character separator). -/
def jsSplit (sep : Char) : List Char → List (List Char)
  | [] => [[]]
  | c :: rest =>
    let r := jsSplit sep rest
    if c = sep then
      [] :: r
    else
      match r with
      | [] => [[c]]
      | seg :: segs => (c :: seg) :: segs

/-! ## FormValidator (src/unnamed/part_002) -/

/-- The result object produced by `FormValidator.validateEmail`:
`{ isValid, message }`, plus the normalized `email` field present only
on success. -/
structure ValidationResult where
  isValid : Bool
  message : String
  email : Option String
  deriving Repr, DecidableEq

/-- The fixed strings of `this.messages` in the `FormValidator`
constructor. -/
structure Messages where
  required : String
  invalidEmail : String
  networkError : String
  serverError : String
  success : String
  deriving Repr, DecidableEq

/-- `this.messages` from the `FormValidator` constructor. -/
def messages : Messages :=
  { required := "Email address is required"
    invalidEmail := "Please enter a valid email address"
    networkError := "Network error. Please check your connection and try again."
    serverError := "Something went wrong. Please try again later."
    success := "Thank you! We\x27ll notify you as soon as the agenda is released." }

/-- The `suspiciousDomains` deny-list inside `validateEmail`. -/
def suspiciousDomains : List String :=
  ["gmail.co", "gmail.cm", "gmai.com", "gmial.com",
   "yahoo.co", "yahoo.cm", "hotmail.co", "hotmail.cm",
   "outlook.co", "outlook.cm"]

/-- A character matched by the regex class `[^\s@]`. -/
def classOkChar (c : Char) : Bool :=
  !isJsSpace c && !(c = '@')

/-- `cs` is matched in full by `[^\s@]+`: nonempty and every character
admissible. -/
def segMatch (cs : List Char) : Bool :=
  !cs.isEmpty && cs.all classOkChar

/-- `cs` is matched in full by `[^\s@]+\.[^\s@]+`: some position `j`
holds a literal dot with a `[^\s@]+` match on each side. -/
def domMatch (cs : List Char) : Bool :=
  (List.range cs.length).any (fun j =>
    cs.getD j ' ' = '.' && segMatch (cs.take j) && segMatch (cs.drop (j + 1)))

/-- Embedding of `this.patterns.email.test(s)` for the regex
`/^[^\s@]+@[^\s@]+\.[^\s@]+$/`: some position `i` holds the literal `@`
with a `[^\s@]+` match before it and a `[^\s@]+\.[^\s@]+` match after. -/
def emailPatternMatch (s : String) : Bool :=
  let cs := s.data
  (List.range cs.length).any (fun i =>
    cs.getD i ' ' = '@' && segMatch (cs.take i) && domMatch (cs.drop (i + 1)))

/-- Embedding of `FormValidator.validateEmail`. -/
def validateEmail (email : String) : ValidationResult :=
  if email = "" ∨ jsTrim email = "" then
    { isValid := false, message := messages.required, email := none }
  else
    let normalizedEmail := jsToLower (jsTrim email)
    if !emailPatternMatch normalizedEmail then
      { isValid := false, message := messages.invalidEmail, email := none }
    else
      let domain : List Char := (jsSplit '@' normalizedEmail.data).getD 1 []
      if suspiciousDomains.contains ⟨domain⟩ then
        { isValid := false, message := "Please check your email domain spelling",
          email := none }
      else
        { isValid := true, message := "", email := some normalizedEmail }

/-- Some `@` in the list is followed (anywhere later) by a `.`. -/
def hasDotAfterAt : List Char → Bool
  | [] => false
  | c :: rest => (c = '@' && rest.any (fun d => d = '.')) || hasDotAfterAt rest

/-- The `eduDomains` keyword list in `FormValidator.isEducationalEmail`. -/
def eduDomains : List String :=
  [".edu", ".ac.", ".edu.",
   "school", "college", "university",
   "board", "district"]

/-- Embedding of `FormValidator.isEducationalEmail`: the lowercased email
contains one of the educational keywords as a substring. -/
def isEducationalEmail (email : String) : Bool :=
  eduDomains.any (fun d => jsIncludes (jsToLower email) d)

/-- Embedding of `FormValidator.getSuccessMessage`. -/
def getSuccessMessage (email : String) : String :=
  if isEducationalEmail email then
    "Thank you! We\x27ll send the agenda details to your educational email address as soon as they\x27re available."
  else
    messages.success

/-! ## CareerLaunchApp (src/js/main.js) -/

/-- A JavaScript `Error` as the controller observes it: its `name` and
`message` fields (the only two the code reads). -/
structure JsError where
  name : String
  message : String
  deriving Repr, DecidableEq

/-- What one real fetch attempt inside `submitToZoho` produces, as seen by
the surrounding `try`: a parsed success body (`response.ok` with
`data[0].status === 'success'`), a JS error thrown by `fetch`/`json()`
(network failure, timeout abort, parse failure), or a non-success
response, for which the code computes
`result.data?.[0]?.message || result.message || 'API request failed'`
(here the oracle supplies the computed string) and throws
`new Error(errorMsg)`. -/
inductive AttemptResult where
  | success (id : String)
  | thrown (e : JsError)
  | apiFailure (msg : String)
  deriving Repr, DecidableEq

/-- The JS error object entering the `catch` block for a failed attempt:
a thrown error is caught as-is and `new Error(msg)` has `name = "Error"`.
(The `success` case never enters the `catch`; its value here is unused.) -/
def attemptError : AttemptResult → JsError
  | .success _ => ⟨"Error", ""⟩
  | .thrown e => e
  | .apiFailure msg => ⟨"Error", msg⟩

/-- A resolved submission value: `{ success, id?, message? }`. -/
structure SubmitOutcome where
  success : Bool
  id : Option String
  message : Option String
  deriving Repr, DecidableEq

/-- Observable events of one `submitToZoho` run: a fetch of the real
endpoint, the simulated fallback (with its fixed delay), or a backoff
delay of `1000 * retryCount` ms before a retry. -/
inductive FetchEvent where
  | realFetch
  | simulated (delayMs : Nat)
  | retryDelay (ms : Nat)
  deriving Repr, DecidableEq

deriving instance DecidableEq for Except

/-- The outcome of a `submitToZoho` call: the resolved/rejected promise,
the final value of the mutable `this.retryCount`, and the event trace. -/
structure SubmitRun where
  result : Except JsError SubmitOutcome
  retryCount : Nat
  events : List FetchEvent
  deriving Repr, DecidableEq

/-- `this.maxRetries` from the `CareerLaunchApp` constructor. -/
def maxRetries : Nat := 3

/-- The delay `this.delay(1500)` in `simulateSubmission`. -/
def simulatedDelayMs : Nat := 1500

/-- Embedding of `CareerLaunchApp.simulateSubmission`: the
`Math.random() < 0.1` draw is the oracle `simFails` and `Date.now()` is
the oracle `now`; the 1.5 s delay is recorded by the caller as a
`FetchEvent.simulated` event. -/
def simulateSubmission (simFails : Bool) (now : Nat) : Except JsError SubmitOutcome :=
  if simFails then
    .error ⟨"Error", "Simulated network error"⟩
  else
    .ok { success := true, id := some ("sim_" ++ toString now),
          message := some "Simulation successful" }

/-- The fixed `networkErrors` keyword list in
`CareerLaunchApp.isNetworkError`. -/
def networkErrorKeywords : List String :=
  ["network", "fetch", "connection", "timeout",
   "dns", "offline", "cors", "blocked"]

/-- Embedding of `CareerLaunchApp.isNetworkError`: the lowercased message
contains one of the keywords as a substring. -/
def isNetworkError (e : JsError) : Bool :=
  networkErrorKeywords.any (fun k => jsIncludes (jsToLower e.message) k)

/-- The message of the error `submitToZoho` rethrows when a fetch aborts
on timeout (`error.name === 'AbortError'`). -/
def timedOutRethrowMsg : String := "Request timed out. Please check your connection."

/-- Model artifact: the error produced when the attempt oracle runs dry
(a real fetch always yields some outcome; theorems supply a long enough
oracle so this case is never reached). -/
def oracleExhausted : JsError := ⟨"ModelError", "attempt oracle exhausted"⟩

/-- Embedding of `CareerLaunchApp.submitToZoho`. `authToken` is
`this.zohoConfig.authToken`, `retryCount` the value of the mutable
`this.retryCount` on entry, and `env` the oracle of successive real
fetch outcomes (consumed one per attempt, which also bounds the
recursion). The token check is written in both equations so it is
performed, as in the source, before any fetch regardless of the oracle.
An abort is rethrown as a timed-out error before the retry check; a
network-classified error with retry budget left increments the counter,
waits `1000 * retryCount` ms and recurses on the same payload; anything
else is rethrown. -/
def submitToZoho (authToken : String) (simFails : Bool) (now : Nat) :
    Nat → List AttemptResult → SubmitRun
  | retryCount, [] =>
    if authToken = "" then
      { result := simulateSubmission simFails now, retryCount := retryCount,
        events := [.simulated simulatedDelayMs] }
    else
      { result := .error oracleExhausted, retryCount := retryCount, events := [] }
  | retryCount, a :: rest =>
    if authToken = "" then
      { result := simulateSubmission simFails now, retryCount := retryCount,
        events := [.simulated simulatedDelayMs] }
    else
      match a with
      | .success id =>
        { result := .ok { success := true, id := some id, message := none },
          retryCount := retryCount, events := [.realFetch] }
      | _ =>
        let e := attemptError a
        if e.name = "AbortError" then
          { result := .error ⟨"Error", timedOutRethrowMsg⟩,
            retryCount := retryCount, events := [.realFetch] }
        else if retryCount < maxRetries ∧ isNetworkError e = true then
          let run := submitToZoho authToken simFails now (retryCount + 1) rest
          { result := run.result, retryCount := run.retryCount,
            events := .realFetch :: .retryDelay (1000 * (retryCount + 1)) :: run.events }
        else
          { result := .error e, retryCount := retryCount, events := [.realFetch] }

/-- The user-facing message selection of
`CareerLaunchApp.handleSubmissionError`: network-classified errors first,
then messages containing `timeout`/`timed out` (case-sensitive), then the
generic server error. -/
def chooseErrorMessage (e : JsError) : String :=
  if isNetworkError e then
    messages.networkError
  else if jsIncludes e.message "timeout" || jsIncludes e.message "timed out" then
    "Request timed out. Please try again."
  else
    messages.serverError

/-- Embedding of `result.message || 'Submission failed'` (JS `||` treats
the empty string and an absent field as falsy). -/
def jsOrString (o : Option String) (dflt : String) : String :=
  match o with
  | none => dflt
  | some m => if m = "" then dflt else m

/-- The controller state `handleFormSubmit` reads and writes: the
`isSubmitting` single-flight flag, the mutable `this.retryCount`, and the
value of the email input field. -/
structure AppState where
  isSubmitting : Bool
  retryCount : Nat
  emailValue : String
  deriving Repr, DecidableEq

/-- Observable UI effects of one `handleFormSubmit` invocation, in
program order. -/
inductive UiAction where
  | clearMessages
  | displayFieldError (msg : String)
  | setInputValidity (ok : Bool)
  | focusError
  | setLoading (b : Bool)
  | fetchEvents (evs : List FetchEvent)
  | showSuccessMsg (msg : String)
  | clearInput
  | showErrorMsg (msg : String)
  | trackConversion (email : String)
  deriving Repr, DecidableEq

/-- Embedding of `CareerLaunchApp.handleFormSubmit`: the `isSubmitting`
guard, validation via `validateForm` (which validates the input value and
updates the field's error display and validity state), then the
try/catch/finally around `submitToZoho`: on success show the banner,
reset the form (clear input, clear field error, zero the retry counter)
and track the conversion; on a thrown error (or a non-success outcome,
rethrown as `Error(result.message || 'Submission failed')`) show the
message chosen by `handleSubmissionError`; `finally` restores the
loading state and the single-flight flag. -/
def handleFormSubmit (authToken : String) (simFails : Bool) (now : Nat)
    (s : AppState) (env : List AttemptResult) : AppState × List UiAction :=
  if s.isSubmitting then (s, [])
  else
    let vr := validateEmail s.emailValue
    let preActions : List UiAction :=
      [.clearMessages,
       .displayFieldError (if vr.isValid then "" else vr.message),
       .setInputValidity vr.isValid]
    if vr.isValid = false then
      (s, preActions ++ [.focusError])
    else
      let run := submitToZoho authToken simFails now s.retryCount env
      let email := vr.email.getD ""
      match run.result with
      | .ok r =>
        if r.success then
          ({ isSubmitting := false, retryCount := 0, emailValue := "" },
           preActions ++
             [.setLoading true, .fetchEvents run.events,
              .showSuccessMsg (getSuccessMessage email), .clearInput,
              .displayFieldError "", .trackConversion email, .setLoading false])
        else
          let e : JsError := ⟨"Error", jsOrString r.message "Submission failed"⟩
          ({ isSubmitting := false, retryCount := run.retryCount, emailValue := s.emailValue },
           preActions ++
             [.setLoading true, .fetchEvents run.events,
              .showErrorMsg (chooseErrorMessage e), .setLoading false])
      | .error e =>
        ({ isSubmitting := false, retryCount := run.retryCount, emailValue := s.emailValue },
         preActions ++
           [.setLoading true, .fetchEvents run.events,
            .showErrorMsg (chooseErrorMessage e), .setLoading false])

/-- Number of real-endpoint fetches recorded in an event trace. -/
def countRealFetches (evs : List FetchEvent) : Nat :=
  (evs.filter (fun ev => match ev with | .realFetch => true | _ => false)).length

/-- An attempt outcome that enters the catch as a network-classified,
non-abort error (the retryable case of `submitToZoho`). -/
def isNetFailAttempt (a : AttemptResult) : Bool :=
  match a with
  | .success _ => false
  | _ => !((attemptError a).name == "AbortError") && isNetworkError (attemptError a)

/-- A concrete network-classified failure used in witnesses: the browser
`TypeError: Failed to fetch`. -/
def netFailProbe : AttemptResult := .thrown ⟨"TypeError", "Failed to fetch"⟩

/-- A concrete four-failure oracle used in witnesses. -/
def netFailEnvFour : List AttemptResult :=
  [netFailProbe, netFailProbe, netFailProbe, netFailProbe]

/-! ## Helper lemmas about the validator -/

theorem eq_at_of_jsToLowerChar {c : Char} (h : jsToLowerChar c = '@') : c = '@' := by
  unfold jsToLowerChar at h
  split at h
  · exfalso
    rename_i hc
    obtain ⟨h1, h2⟩ := hc
    generalize hn : c.toNat = n at h1 h2 h
    interval_cases n <;> exact absurd h (by decide)
  · exact h

theorem eq_dot_of_jsToLowerChar {c : Char} (h : jsToLowerChar c = '.') : c = '.' := by
  unfold jsToLowerChar at h
  split at h
  · exfalso
    rename_i hc
    obtain ⟨h1, h2⟩ := hc
    generalize hn : c.toNat = n at h1 h2 h
    interval_cases n <;> exact absurd h (by decide)
  · exact h

theorem hasDotAfterAt_of_map {l : List Char}
    (h : hasDotAfterAt (l.map jsToLowerChar) = true) : hasDotAfterAt l = true := by
  induction l with
  | nil => simp [hasDotAfterAt] at h
  | cons c rest ih =>
    simp only [List.map_cons, hasDotAfterAt, Bool.or_eq_true, Bool.and_eq_true,
      decide_eq_true_eq, List.any_eq_true] at h ⊢
    rcases h with ⟨ha, d, hd, rfl⟩ | h2
    · obtain ⟨a, haRest, haEq⟩ := List.mem_map.mp hd
      exact Or.inl ⟨eq_at_of_jsToLowerChar ha, a, haRest, eq_dot_of_jsToLowerChar haEq⟩
    · exact Or.inr (ih h2)

theorem hasDotAfterAt_sublist {l₁ l₂ : List Char} (h : List.Sublist l₁ l₂)
    (hd : hasDotAfterAt l₁ = true) : hasDotAfterAt l₂ = true := by
  induction h with
  | slnil => simp [hasDotAfterAt] at hd
  | cons a h ih =>
    simp only [hasDotAfterAt, Bool.or_eq_true]
    exact Or.inr (ih hd)
  | cons₂ a h ih =>
    simp only [hasDotAfterAt, Bool.or_eq_true, Bool.and_eq_true,
      decide_eq_true_eq, List.any_eq_true] at hd ⊢
    rcases hd with ⟨ha, d, hdMem, rfl⟩ | h2
    · exact Or.inl ⟨ha, '.', h.subset hdMem, rfl⟩
    · exact Or.inr (ih h2)

theorem jsTrimList_sublist (cs : List Char) : List.Sublist (jsTrimList cs) cs := by
  unfold jsTrimList
  have h1 : List.Sublist (cs.dropWhile isJsSpace) cs := List.dropWhile_sublist _
  have h2 : List.Sublist ((cs.dropWhile isJsSpace).reverse.dropWhile isJsSpace)
      (cs.dropWhile isJsSpace).reverse := List.dropWhile_sublist _
  have h3 := h2.reverse
  rw [List.reverse_reverse] at h3
  exact h3.trans h1

theorem hasDotAfterAt_of_parts (x y : List Char) (hy : '.' ∈ y) :
    hasDotAfterAt (x ++ '@' :: y) = true := by
  induction x with
  | nil =>
    simp only [List.nil_append, hasDotAfterAt, Bool.or_eq_true, Bool.and_eq_true,
      decide_eq_true_eq, List.any_eq_true]
    exact Or.inl ⟨by trivial, '.', hy, rfl⟩
  | cons c rest ih =>
    simp only [List.cons_append, hasDotAfterAt, Bool.or_eq_true]
    exact Or.inr ih

theorem emailPatternMatch_parts {s : String} (h : emailPatternMatch s = true) :
    '@' ∈ s.data ∧ hasDotAfterAt s.data = true := by
  unfold emailPatternMatch at h
  rw [List.any_eq_true] at h
  obtain ⟨i, hi, hcond⟩ := h
  rw [List.mem_range] at hi
  simp only [Bool.and_eq_true, decide_eq_true_eq] at hcond
  obtain ⟨⟨hat, _⟩, hdom⟩ := hcond
  rw [List.getD_eq_getElem?_getD, List.getElem?_eq_getElem hi] at hat
  simp only [Option.getD_some] at hat
  unfold domMatch at hdom
  rw [List.any_eq_true] at hdom
  obtain ⟨j, hj, hjcond⟩ := hdom
  rw [List.mem_range] at hj
  simp only [Bool.and_eq_true, decide_eq_true_eq] at hjcond
  obtain ⟨⟨hdot, _⟩, _⟩ := hjcond
  rw [List.getD_eq_getElem?_getD, List.getElem?_eq_getElem hj] at hdot
  simp only [Option.getD_some] at hdot
  have hdotMem : '.' ∈ s.data.drop (i + 1) := hdot ▸ List.getElem_mem hj
  have hsplit : s.data = s.data.take i ++ '@' :: s.data.drop (i + 1) := by
    conv_lhs => rw [← List.take_append_drop i s.data]
    rw [List.drop_eq_getElem_cons hi, hat]
  constructor
  · exact hat ▸ List.getElem_mem hi
  · rw [hsplit]
    exact hasDotAfterAt_of_parts _ _ hdotMem

theorem at_mem_of_normalized {s : String}
    (h : '@' ∈ (jsToLower (jsTrim s)).data) : '@' ∈ s.data := by
  obtain ⟨a, haMem, haEq⟩ := List.mem_map.mp h
  exact (jsTrimList_sublist s.data).subset (eq_at_of_jsToLowerChar haEq ▸ haMem)

theorem hasDot_of_normalized {s : String}
    (h : hasDotAfterAt (jsToLower (jsTrim s)).data = true) :
    hasDotAfterAt s.data = true :=
  hasDotAfterAt_sublist (jsTrimList_sublist s.data) (hasDotAfterAt_of_map h)

/-- One case analysis over the four return points of `validateEmail`:
either the success record is produced (with the normalized email and a
passing format pattern), or one of the three failure records. -/
theorem validateEmail_shape (s : String) :
    ((validateEmail s).isValid = true ∧ (validateEmail s).message = "" ∧
     (validateEmail s).email = some (jsToLower (jsTrim s)) ∧
     emailPatternMatch (jsToLower (jsTrim s)) = true) ∨
    ((validateEmail s).isValid = false ∧ (validateEmail s).email = none ∧
     ((validateEmail s).message = messages.required ∨
      (validateEmail s).message = messages.invalidEmail ∨
      ((validateEmail s).message = "Please check your email domain spelling" ∧
       emailPatternMatch (jsToLower (jsTrim s)) = true))) := by
  simp only [validateEmail]
  split
  · right
    simp
  · split
    · rename_i hpat
      right
      simp_all
    · rename_i hpat
      rw [Bool.not_eq_true', Bool.not_eq_false] at hpat
      split
      · right
        simp_all
      · left
        simp_all

/-! ## Claim theorems about the validator -/

/-- C4: for every input string that contains no `@` character, or contains
no `.` anywhere after its `@`, `validateEmail` returns a result with
`isValid = false`. -/
theorem validateEmail_rejects_missing_at_or_dot (s : String)
    (h : '@' ∉ s.data ∨ hasDotAfterAt s.data = false) :
    (validateEmail s).isValid = false := by
  rcases validateEmail_shape s with ⟨hv, _, _, hpat⟩ | ⟨hv, _⟩
  · exfalso
    obtain ⟨hat, hdot⟩ := emailPatternMatch_parts hpat
    rcases h with h | h
    · exact h (at_mem_of_normalized hat)
    · rw [hasDot_of_normalized hdot] at h
      exact absurd h (by decide)
  · exact hv

/-- C4 witness: `"plainaddress"` contains no `@` and is rejected. -/
theorem validateEmail_rejects_missing_at_or_dot_witness :
    ('@' ∉ "plainaddress".data ∨ hasDotAfterAt "plainaddress".data = false) ∧
    (validateEmail "plainaddress").isValid = false :=
  ⟨by decide, validateEmail_rejects_missing_at_or_dot "plainaddress" (by decide)⟩

/-- C5: `validateEmail " Foo@Bar.COM "` returns `isValid = true` together
with the normalized email `foo@bar.com`; in general, on success the
returned `email` field equals the trimmed, lowercased input. -/
theorem validateEmail_success_normalizes (s : String) :
    validateEmail " Foo@Bar.COM "
      = { isValid := true, message := "", email := some "foo@bar.com" } ∧
    ((validateEmail s).isValid = true →
      (validateEmail s).email = some (jsToLower (jsTrim s))) := by
  refine ⟨by decide, fun hv => ?_⟩
  rcases validateEmail_shape s with ⟨_, _, he, _⟩ | ⟨hf, _⟩
  · exact he
  · rw [hv] at hf
    exact absurd hf (by decide)

/-- C5 witness: a concrete successful validation whose `email` field is
the trimmed, lowercased input. -/
theorem validateEmail_success_normalizes_witness :
    (validateEmail "A@B.Ca").isValid = true ∧
    (validateEmail "A@B.Ca").email = some (jsToLower (jsTrim "A@B.Ca")) :=
  ⟨by decide, (validateEmail_success_normalizes "A@B.Ca").2 (by decide)⟩

/-- C6: `validateEmail "x@gmail.co"` fails with the domain-spelling
message, which differs from the generic invalid-format message; and the
deny-list message is only ever produced after the format pattern has
passed on the normalized email. -/
theorem validateEmail_domain_deny_after_format (s : String) :
    validateEmail "x@gmail.co"
      = { isValid := false, message := "Please check your email domain spelling",
          email := none } ∧
    "Please check your email domain spelling" ≠ messages.invalidEmail ∧
    ((validateEmail s).message = "Please check your email domain spelling" →
      emailPatternMatch (jsToLower (jsTrim s)) = true) := by
  refine ⟨by decide, by decide, fun hm => ?_⟩
  rcases validateEmail_shape s with ⟨_, _, _, hpat⟩ | ⟨_, _, hmsg | hmsg | ⟨_, hpat⟩⟩
  · exact hpat
  · rw [hm] at hmsg
    exact absurd hmsg (by decide)
  · rw [hm] at hmsg
    exact absurd hmsg (by decide)
  · exact hpat

/-- C6 witness: the deny-list branch at `"x@gmail.co"` presupposes a
passing format pattern. -/
theorem validateEmail_domain_deny_after_format_witness :
    (validateEmail "x@gmail.co").message = "Please check your email domain spelling" ∧
    emailPatternMatch (jsToLower (jsTrim "x@gmail.co")) = true :=
  ⟨by decide, (validateEmail_domain_deny_after_format "x@gmail.co").2.2 (by decide)⟩

/-- C10: shape invariant of every `validateEmail` result: success carries
an empty message and a present `email` field; failure carries a non-empty
message and no `email` field. -/
theorem validateEmail_result_shape (s : String) :
    ((validateEmail s).isValid = true →
      (validateEmail s).message = "" ∧ ((validateEmail s).email).isSome = true) ∧
    ((validateEmail s).isValid = false →
      (validateEmail s).message ≠ "" ∧ (validateEmail s).email = none) := by
  rcases validateEmail_shape s with ⟨hv, hm, he, _⟩ | ⟨hv, he, hm⟩
  · refine ⟨fun _ => ⟨hm, by rw [he]; rfl⟩, fun hf => ?_⟩
    rw [hv] at hf
    exact absurd hf (by decide)
  · refine ⟨fun ht => ?_, fun _ => ⟨?_, he⟩⟩
    · rw [hv] at ht
      exact absurd ht (by decide)
    · rcases hm with hm | hm | ⟨hm, _⟩ <;> rw [hm] <;> decide

/-- C10 witness: the invariant evaluated at a success and at a failure. -/
theorem validateEmail_result_shape_witness :
    ((validateEmail "a@b.c").message = "" ∧ ((validateEmail "a@b.c").email).isSome = true) ∧
    ((validateEmail "x").message ≠ "" ∧ (validateEmail "x").email = none) :=
  ⟨(validateEmail_result_shape "a@b.c").1 (by decide),
   (validateEmail_result_shape "x").2 (by decide)⟩

/-! ## Helper lemmas about the controller -/

theorem countRealFetches_cons_retry (m : Nat) (evs : List FetchEvent) :
    countRealFetches (.realFetch :: .retryDelay m :: evs) = countRealFetches evs + 1 := by
  simp [countRealFetches, List.filter_cons]

theorem netFail_parts {a : AttemptResult} (ha : isNetFailAttempt a = true) :
    ¬ (attemptError a).name = "AbortError" ∧ isNetworkError (attemptError a) = true := by
  cases a with
  | success id => simp [isNetFailAttempt] at ha
  | thrown e =>
    simp only [isNetFailAttempt, Bool.and_eq_true, Bool.not_eq_true',
      beq_eq_false_iff_ne, ne_eq] at ha
    exact ha
  | apiFailure msg =>
    simp only [isNetFailAttempt, Bool.and_eq_true, Bool.not_eq_true',
      beq_eq_false_iff_ne, ne_eq] at ha
    exact ha

/-- One step of `submitToZoho` on a network-classified failure: retry
while the guard `retryCount < maxRetries` holds, otherwise rethrow. -/
theorem submitToZoho_netfail_cons (authToken : String) (hA : ¬ authToken = "")
    (simFails : Bool) (now rc : Nat) (a : AttemptResult) (rest : List AttemptResult)
    (ha : isNetFailAttempt a = true) :
    submitToZoho authToken simFails now rc (a :: rest)
      = if rc < maxRetries then
          { result := (submitToZoho authToken simFails now (rc + 1) rest).result,
            retryCount := (submitToZoho authToken simFails now (rc + 1) rest).retryCount,
            events := .realFetch :: .retryDelay (1000 * (rc + 1)) ::
              (submitToZoho authToken simFails now (rc + 1) rest).events }
        else
          { result := .error (attemptError a), retryCount := rc,
            events := [.realFetch] } := by
  obtain ⟨hname, hnet⟩ := netFail_parts ha
  cases a with
  | success id => simp [isNetFailAttempt] at ha
  | thrown e =>
    simp only [attemptError] at hname hnet
    simp only [submitToZoho]
    rw [if_neg hA]
    simp only [attemptError]
    rw [if_neg hname]
    by_cases hrc : rc < maxRetries
    · rw [if_pos ⟨hrc, hnet⟩, if_pos hrc]
    · rw [if_neg (fun hc => hrc hc.1), if_neg hrc]
  | apiFailure msg =>
    simp only [attemptError] at hname hnet
    simp only [submitToZoho]
    rw [if_neg hA]
    simp only [attemptError]
    rw [if_neg hname]
    by_cases hrc : rc < maxRetries
    · rw [if_pos ⟨hrc, hnet⟩, if_pos hrc]
    · rw [if_neg (fun hc => hrc hc.1), if_neg hrc]

/-- With a configured token and only network-classified failures
available, `submitToZoho` retries until the budget is exhausted: it ends
with a network-classified rejection, the counter at `maxRetries`, and
`maxRetries - rc + 1` real fetches. -/
theorem submitToZoho_allNetFail (authToken : String) (hA : ¬ authToken = "")
    (simFails : Bool) (now : Nat) (env : List AttemptResult) :
    ∀ rc : Nat,
      (∀ a ∈ env, isNetFailAttempt a = true) →
      maxRetries - rc < env.length →
      rc ≤ maxRetries →
      (∃ e, (submitToZoho authToken simFails now rc env).result = Except.error e ∧
        isNetworkError e = true) ∧
      (submitToZoho authToken simFails now rc env).retryCount = maxRetries ∧
      countRealFetches (submitToZoho authToken simFails now rc env).events
        = maxRetries - rc + 1 := by
  induction env with
  | nil =>
    intro rc hall hlen hrc
    simp at hlen
  | cons a rest ih =>
    intro rc hall hlen hrc
    have ha := hall a (List.mem_cons_self a rest)
    obtain ⟨hname, hnet⟩ := netFail_parts ha
    rw [submitToZoho_netfail_cons authToken hA simFails now rc a rest ha]
    by_cases hrc2 : rc < maxRetries
    · rw [if_pos hrc2]
      have hlen' : maxRetries - (rc + 1) < rest.length := by
        simp only [List.length_cons] at hlen
        omega
      obtain ⟨⟨e', he', hnet'⟩, hcnt, hfetch⟩ :=
        ih (rc + 1) (fun b hb => hall b (List.mem_cons_of_mem a hb)) hlen' (by omega)
      refine ⟨⟨e', he', hnet'⟩, hcnt, ?_⟩
      show countRealFetches (.realFetch :: .retryDelay (1000 * (rc + 1)) ::
        (submitToZoho authToken simFails now (rc + 1) rest).events) = maxRetries - rc + 1
      rw [countRealFetches_cons_retry, hfetch]
      omega
    · rw [if_neg hrc2]
      have hrcEq : rc = maxRetries := by omega
      refine ⟨⟨attemptError a, rfl, hnet⟩, hrcEq, ?_⟩
      rw [hrcEq]
      simp [countRealFetches]

/-- A network-classified failure arriving with the budget already
exhausted is rethrown at once: one real fetch, no retry. -/
theorem submitToZoho_no_budget (authToken : String) (hA : ¬ authToken = "")
    (simFails : Bool) (now : Nat) (a : AttemptResult) (rest : List AttemptResult)
    (ha : isNetFailAttempt a = true) :
    submitToZoho authToken simFails now maxRetries (a :: rest)
      = { result := Except.error (attemptError a), retryCount := maxRetries,
          events := [.realFetch] } := by
  rw [submitToZoho_netfail_cons authToken hA simFails now maxRetries a rest ha]
  rw [if_neg (Nat.lt_irrefl maxRetries)]

/-! ## Claim theorems about the controller -/

/-- C1 counterexample: with a configured token and five consecutive
network-classified failures available, `submitToZoho` starting from a
zero retry count performs exactly 4 real network fetches — so after the
3rd consecutive network-classified failure a 4th network attempt IS
made, refuting the claim that no 4th attempt occurs. -/
theorem submitToZoho_fourth_attempt_cex :
    countRealFetches (submitToZoho "token" false 0 0
      [netFailProbe, netFailProbe, netFailProbe, netFailProbe, netFailProbe]).events = 4 ∧
    ¬ countRealFetches (submitToZoho "token" false 0 0
      [netFailProbe, netFailProbe, netFailProbe, netFailProbe, netFailProbe]).events ≤ 3 := by
  refine ⟨by decide, by decide⟩

/-- C1 (amended): with a configured token and a zero retry count on
entry, when every available attempt outcome is a network-classified
failure (at least 4 supplied), `submitToZoho` performs exactly 4 real
fetches — the initial attempt plus 3 retries, the retry guard permitting
a retry only while fewer than `maxRetries = 3` retries have been
consumed — and then stops: the promise rejects with a network-classified
error and the retry counter ends exhausted at 3, with no 5th fetch. -/
theorem submitToZoho_stops_after_four (authToken : String) (hA : ¬ authToken = "")
    (simFails : Bool) (now : Nat) (env : List AttemptResult)
    (hall : ∀ a ∈ env, isNetFailAttempt a = true) (hlen : 4 ≤ env.length) :
    (∃ e, (submitToZoho authToken simFails now 0 env).result = Except.error e ∧
      isNetworkError e = true) ∧
    (submitToZoho authToken simFails now 0 env).retryCount = 3 ∧
    countRealFetches (submitToZoho authToken simFails now 0 env).events = 4 := by
  obtain ⟨hres, hcnt, hfetch⟩ := submitToZoho_allNetFail authToken hA simFails now env 0 hall
    (by simp only [maxRetries]; omega) (Nat.zero_le _)
  refine ⟨hres, hcnt, by rw [hfetch]; rfl⟩

/-- C1 witness: the amended statement at a concrete five-failure oracle. -/
theorem submitToZoho_stops_after_four_witness :
    (∃ e, (submitToZoho "token" false 0 0
      [netFailProbe, netFailProbe, netFailProbe, netFailProbe, netFailProbe]).result
        = Except.error e ∧ isNetworkError e = true) ∧
    (submitToZoho "token" false 0 0
      [netFailProbe, netFailProbe, netFailProbe, netFailProbe, netFailProbe]).retryCount = 3 ∧
    countRealFetches (submitToZoho "token" false 0 0
      [netFailProbe, netFailProbe, netFailProbe, netFailProbe, netFailProbe]).events = 4 :=
  submitToZoho_stops_after_four "token" (by decide) false 0 _ (by decide) (by decide)

/-- C2 counterexample: a concrete attempt aborted by the configured
timeout is rethrown as `Error("Request timed out. Please check your
connection.")`, for which `handleSubmissionError` selects the generic
network-error message — not the dedicated timed-out message the claim
asserts. -/
theorem abort_message_cex :
    (submitToZoho "token" false 0 0
      [.thrown ⟨"AbortError", "signal timed out"⟩]).result
      = Except.error ⟨"Error", timedOutRethrowMsg⟩ ∧
    chooseErrorMessage ⟨"Error", timedOutRethrowMsg⟩ = messages.networkError ∧
    ¬ chooseErrorMessage ⟨"Error", timedOutRethrowMsg⟩
        = "Request timed out. Please try again." := by
  refine ⟨by decide, by decide, by decide⟩

/-- C2 (amended): an attempt aborted by the configured timeout is
rethrown by `submitToZoho` as `Error("Request timed out. Please check
your connection.")` without consuming a retry; because that message
contains the network keyword `connection`, `handleSubmissionError`
classifies it as network-class and shows the generic network-error
message, which differs from the dedicated timed-out message; the
dedicated message is selected exactly for errors that are not
network-classified but whose message contains `timeout` or `timed out`. -/
theorem abort_yields_network_message (authToken : String) (hA : ¬ authToken = "")
    (simFails : Bool) (now rc : Nat) (m : String) (rest : List AttemptResult) :
    submitToZoho authToken simFails now rc (.thrown ⟨"AbortError", m⟩ :: rest)
      = { result := Except.error ⟨"Error", timedOutRethrowMsg⟩, retryCount := rc,
          events := [.realFetch] } ∧
    chooseErrorMessage ⟨"Error", timedOutRethrowMsg⟩ = messages.networkError ∧
    ¬ messages.networkError = "Request timed out. Please try again." ∧
    (∀ e : JsError, isNetworkError e = false →
      (jsIncludes e.message "timeout" || jsIncludes e.message "timed out") = true →
      chooseErrorMessage e = "Request timed out. Please try again.") := by
  refine ⟨?_, by decide, by decide, fun e hnet ht => ?_⟩
  · simp only [submitToZoho]
    rw [if_neg hA]
    simp only [attemptError]
    rw [if_pos trivial]
  · unfold chooseErrorMessage
    rw [if_neg (by simp [hnet]), if_pos ht]

/-- C2 witness: the amended statement at a concrete aborted attempt, and
a concrete non-network error that does receive the dedicated message. -/
theorem abort_yields_network_message_witness :
    submitToZoho "token" false 0 0 [.thrown ⟨"AbortError", "signal timed out"⟩]
      = { result := Except.error ⟨"Error", timedOutRethrowMsg⟩, retryCount := 0,
          events := [.realFetch] } ∧
    chooseErrorMessage ⟨"Error", "x timed out"⟩ = "Request timed out. Please try again." :=
  ⟨(abort_yields_network_message "token" (by decide) false 0 0 "signal timed out" []).1,
   (abort_yields_network_message "token" (by decide) false 0 0 "signal timed out" []).2.2.2
     ⟨"Error", "x timed out"⟩ (by decide) (by decide)⟩

/-- C3: while `isSubmitting` is true, invoking `handleFormSubmit` again
is a no-op: the state is unchanged and the action trace is empty — no
validation, no UI mutation, and no network call, so at most one
submission attempt is ever in flight. -/
theorem handleFormSubmit_single_flight (authToken : String) (simFails : Bool) (now : Nat)
    (s : AppState) (env : List AttemptResult) (h : s.isSubmitting = true) :
    handleFormSubmit authToken simFails now s env = (s, []) := by
  simp [handleFormSubmit, h]

/-- C3 witness: a concrete re-entrant submit is a no-op. -/
theorem handleFormSubmit_single_flight_witness :
    handleFormSubmit "token" false 0 ⟨true, 1, "a@b.c"⟩ [netFailProbe]
      = (⟨true, 1, "a@b.c"⟩, []) :=
  handleFormSubmit_single_flight "token" false 0 _ _ (by decide)

/-- C7: a submission that completes successfully clears the email input
and resets the retry counter to 0, so a subsequent submission runs with
the full budget of `maxRetries = 3` retries (4 fetches against an
all-network-failure oracle). -/
theorem handleFormSubmit_success_resets (authToken : String) (simFails : Bool) (now : Nat)
    (s : AppState) (env : List AttemptResult) (hs : s.isSubmitting = false)
    (hv : (validateEmail s.emailValue).isValid = true) (o : SubmitOutcome)
    (hok : (submitToZoho authToken simFails now s.retryCount env).result = Except.ok o)
    (hsucc : o.success = true) :
    (handleFormSubmit authToken simFails now s env).1
      = { isSubmitting := false, retryCount := 0, emailValue := "" } ∧
    (∀ env₂ : List AttemptResult, ¬ authToken = "" →
      (∀ a ∈ env₂, isNetFailAttempt a = true) → 4 ≤ env₂.length →
      countRealFetches (submitToZoho authToken simFails now
        (handleFormSubmit authToken simFails now s env).1.retryCount env₂).events = 4) := by
  have hmain : (handleFormSubmit authToken simFails now s env).1
      = { isSubmitting := false, retryCount := 0, emailValue := "" } := by
    simp [handleFormSubmit, hs, hv, hok, hsucc]
  refine ⟨hmain, fun env₂ hA hall hlen => ?_⟩
  rw [hmain]
  exact (submitToZoho_stops_after_four authToken hA simFails now env₂ hall hlen).2.2

/-- C7 witness: a concrete successful submission (entered with a spent
retry counter) clears the input, resets the counter, and the next
submission gets the full budget of 3 retries. -/
theorem handleFormSubmit_success_resets_witness :
    (handleFormSubmit "token" false 0 ⟨false, 2, "a@b.c"⟩ [.success "42"]).1
      = { isSubmitting := false, retryCount := 0, emailValue := "" } ∧
    countRealFetches (submitToZoho "token" false 0
      (handleFormSubmit "token" false 0 ⟨false, 2, "a@b.c"⟩ [.success "42"]).1.retryCount
      netFailEnvFour).events = 4 :=
  ⟨(handleFormSubmit_success_resets "token" false 0 _ _ (by decide) (by decide)
      ⟨true, some "42", none⟩ (by decide) (by decide)).1,
   (handleFormSubmit_success_resets "token" false 0 _ _ (by decide) (by decide)
      ⟨true, some "42", none⟩ (by decide) (by decide)).2
     netFailEnvFour (by decide) (by decide) (by decide)⟩

/-- C8: with an empty configured auth token, `submitToZoho` performs no
real-endpoint fetch at all: the trace records only the simulated path
with its fixed 1.5 s delay, the retry counter is untouched, and the
outcome is the simulated one — a `Simulated network error` rejection
exactly when the `Math.random() < 0.1` draw (the oracle `simFails`)
fails, a successful outcome otherwise. -/
theorem submitToZoho_fallback_simulates (simFails : Bool) (now rc : Nat)
    (env : List AttemptResult) :
    submitToZoho "" simFails now rc env
      = { result := simulateSubmission simFails now, retryCount := rc,
          events := [.simulated simulatedDelayMs] } ∧
    countRealFetches (submitToZoho "" simFails now rc env).events = 0 ∧
    simulatedDelayMs = 1500 ∧
    (simFails = true →
      simulateSubmission simFails now
        = Except.error ⟨"Error", "Simulated network error"⟩) ∧
    (simFails = false →
      simulateSubmission simFails now
        = Except.ok { success := true, id := some ("sim_" ++ toString now),
                      message := some "Simulation successful" }) := by
  have h : submitToZoho "" simFails now rc env
      = { result := simulateSubmission simFails now, retryCount := rc,
          events := [.simulated simulatedDelayMs] } := by
    cases env <;> simp [submitToZoho]
  refine ⟨h, by rw [h]; rfl, rfl, fun hf => ?_, fun hf => ?_⟩
  · simp [simulateSubmission, hf]
  · simp [simulateSubmission, hf]

/-- C8 witness: the fallback behavior at a concrete failing draw and a
concrete succeeding draw. -/
theorem submitToZoho_fallback_simulates_witness :
    submitToZoho "" true 7 2 [netFailProbe]
      = { result := simulateSubmission true 7, retryCount := 2,
          events := [.simulated simulatedDelayMs] } ∧
    simulateSubmission true 7 = Except.error ⟨"Error", "Simulated network error"⟩ ∧
    simulateSubmission false 7
      = Except.ok { success := true, id := some "sim_7",
                    message := some "Simulation successful" } :=
  ⟨(submitToZoho_fallback_simulates true 7 2 [netFailProbe]).1,
   (submitToZoho_fallback_simulates true 7 2 [netFailProbe]).2.2.2.1 rfl,
   (submitToZoho_fallback_simulates false 7 2 [netFailProbe]).2.2.2.2 rfl⟩

/-- C9: a submission ending in the catch path of `handleFormSubmit`
leaves the retry counter at whatever `submitToZoho` advanced it to —
only the success path's `resetForm` zeroes it — and keeps the input
value; hence a user-initiated resubmission after the budget is exhausted
(`retryCount = maxRetries`) runs with zero remaining retries: the next
network-classified failure causes a single real fetch and no retry. -/
theorem handleFormSubmit_error_keeps_retryCount (authToken : String) (simFails : Bool)
    (now : Nat) (s : AppState) (env : List AttemptResult) (hs : s.isSubmitting = false)
    (hv : (validateEmail s.emailValue).isValid = true) (e : JsError)
    (he : (submitToZoho authToken simFails now s.retryCount env).result = Except.error e) :
    (handleFormSubmit authToken simFails now s env).1.retryCount
      = (submitToZoho authToken simFails now s.retryCount env).retryCount ∧
    (handleFormSubmit authToken simFails now s env).1.emailValue = s.emailValue ∧
    (∀ a : AttemptResult, ∀ rest : List AttemptResult, ¬ authToken = "" →
      isNetFailAttempt a = true →
      (handleFormSubmit authToken simFails now s env).1.retryCount = maxRetries →
      countRealFetches (submitToZoho authToken simFails now
        (handleFormSubmit authToken simFails now s env).1.retryCount (a :: rest)).events
        = 1) := by
  have hred : (handleFormSubmit authToken simFails now s env).1
      = { isSubmitting := false,
          retryCount := (submitToZoho authToken simFails now s.retryCount env).retryCount,
          emailValue := s.emailValue } := by
    simp [handleFormSubmit, hs, hv, he]
  refine ⟨by rw [hred], by rw [hred], fun a rest hA ha hmax => ?_⟩
  rw [hmax, submitToZoho_no_budget authToken hA simFails now a rest ha]
  rfl

/-- C9 witness: after a concrete exhausted submission (4 network
failures), the retry counter stays at 3, the input keeps its value, and
the next submission performs exactly one fetch. -/
theorem handleFormSubmit_error_keeps_retryCount_witness :
    (handleFormSubmit "token" false 0 ⟨false, 0, "a@b.c"⟩ netFailEnvFour).1.retryCount
      = (submitToZoho "token" false 0 0 netFailEnvFour).retryCount ∧
    (handleFormSubmit "token" false 0 ⟨false, 0, "a@b.c"⟩ netFailEnvFour).1.emailValue
      = "a@b.c" ∧
    countRealFetches (submitToZoho "token" false 0
      (handleFormSubmit "token" false 0 ⟨false, 0, "a@b.c"⟩ netFailEnvFour).1.retryCount
      [netFailProbe]).events = 1 :=
  ⟨(handleFormSubmit_error_keeps_retryCount "token" false 0 _ _ (by decide) (by decide)
      ⟨"TypeError", "Failed to fetch"⟩ (by decide)).1,
   (handleFormSubmit_error_keeps_retryCount "token" false 0 _ _ (by decide) (by decide)
      ⟨"TypeError", "Failed to fetch"⟩ (by decide)).2.1,
   (handleFormSubmit_error_keeps_retryCount "token" false 0 _ _ (by decide) (by decide)
      ⟨"TypeError", "Failed to fetch"⟩ (by decide)).2.2
     netFailProbe [] (by decide) (by decide) (by decide)⟩

end CareerLaunch
